import Mathlib

/-!
Shallow embedding of the incremental GitHub-issues-to-Weaviate sync pipeline
(`src/main.py`, class `GitHubIssueVectorizer`) together with proofs of the
specification's claims about it.

Conventions of the embedding:
* Python dict fields that may be `None` (or absent) become `Option _`;
  Python truthiness tests on strings (`if s:`) become `pythonTruthy`.
* `datetime` timestamps are abstracted to `Nat` (only equality/ordering of
  stored values matters to the claims).
* The paginated HTTP source is modelled as the full ordered list of records
  it serves; page `i` of size 100 is `(server.drop ((i-1)*100)).take 100`,
  matching the GitHub API contract the code assumes.
* `while True:` loops are embedded with a structural fuel parameter large
  enough to cover every reachable iteration; lemmas show the fuel bound is
  never hit.
* Store side effects (collection lookup, batch open, object adds) are
  reified as an explicit effect trace so frame conditions can be stated.
-/

namespace GithubIssuesToWeaviate

/-- Python truthiness of an optional string: `None` and `""` are falsy. -/
def pythonTruthy : Option String → Bool
  | none => false
  | some s => s ≠ ""

/-- A GitHub comment record as used by `_combine_comments`:
`user` is the `login` of the `user` object when it is non-null,
`body` the comment body (possibly null). -/
structure Comment where
  user : Option String
  body : Option String
deriving Repr, DecidableEq

/-- The f-string `f"[{author}]: {comment['body']}"` of src/main.py line 122,
with author `comment["user"]["login"] if comment["user"] else "unknown"`. -/
def renderComment (c : Comment) : String :=
  "[" ++ (match c.user with | some u => u | none => "unknown") ++ "]: " ++ c.body.getD ""

/-- The text block built for one comment inside the loop of
`_combine_comments` (src/main.py lines 119-122): skipped (`none`) when the
body is falsy, otherwise the rendered `"[{author}]: {body}"` block. -/
def commentText (c : Comment) : Option String :=
  if pythonTruthy c.body then some (renderComment c) else none

/-- Embedding of `_combine_comments` (src/main.py lines 112-123): collect the per-comment
blocks in source order and join them with a blank line; `None` when no
comment contributed a block. -/
def combineComments (comments : List Comment) : Option String :=
  let commentTexts := comments.filterMap commentText
  if commentTexts.isEmpty then none else some (String.intercalate "\n\n" commentTexts)

/-- Rendering of the combined field as the specification words it: filter to
the comments whose body is non-empty, render each as an author-tagged block,
join with a blank line, absent when the filtered list is empty. -/
def specCombinedField (comments : List Comment) : Option String :=
  let kept := comments.filter (fun c => pythonTruthy c.body)
  if kept.isEmpty then none
  else some (String.intercalate "\n\n" (kept.map renderComment))

/-! ### Paginators -/

/-- One loop step bound for `fetch_github_issues` (src/main.py lines 223-256):
`remaining` is the suffix of the server's records not yet fetched; a request
returns `remaining.take 100`.  The loop breaks on an empty page or a short
page, else advances to the next page.  Returns (number of page requests
issued, records collected in page order).  `fuel` only bounds the structural
recursion; `fetchIssuesGo_eq` shows any `fuel > remaining.length` is enough. -/
def fetchIssuesGo : Nat → List α → Nat × List α
  | 0, _ => (0, [])
  | fuel + 1, remaining =>
    let pg := remaining.take 100
    if pg.length < 100 then
      (1, pg)
    else
      let r := fetchIssuesGo fuel (remaining.drop 100)
      (r.1 + 1, pg ++ r.2)

/-- Embedding of `fetch_github_issues` against a source serving the ordered record list
`server`: starts at page 1 with `per_page = 100`. -/
def fetchGithubIssues (server : List α) : Nat × List α :=
  fetchIssuesGo (server.length + 1) server

/-- One loop step of `fetch_github_issue_comments` (src/main.py lines
276-309): identical pagination, except a request whose page number equals
`failAt` raises `requests.RequestException`, which the code catches and
turns into `break` — returning the comments collected so far instead of
propagating the error. -/
def fetchCommentsGo : Nat → Option Nat → Nat → List α → List α
  | 0, _, _, _ => []
  | fuel + 1, failAt, page, remaining =>
    if failAt = some page then
      []
    else
      let pg := remaining.take 100
      if pg.length < 100 then
        pg
      else
        pg ++ fetchCommentsGo fuel failAt (page + 1) (remaining.drop 100)

/-- Embedding of `fetch_github_issue_comments` against a source serving `server`, where
the request for page `failAt` (if any) fails.  The function always returns
a comment list — request errors are caught inside the loop, never re-raised. -/
def fetchGithubIssueComments (server : List α) (failAt : Option Nat) : List α :=
  fetchCommentsGo (server.length + 1) failAt 1 server

/-! ### Name-based UUIDs (`uuid.uuid5`)

The method `process_and_store_issues` derives the upsert key with
`uuid.uuid5(uuid.NAMESPACE_URL, f"{owner}_{name}_{number}")`.
`uuid5` is RFC 4122 name-based hashing: SHA-1 of namespace bytes followed by
the UTF-8 encoding of the name, truncated to 16 bytes with version/variant
bits set.  The whole chain is embedded executably below; bytes are `Nat`s
kept below 256 and 32-bit words are `Nat`s reduced mod `2^32`. -/

/-- Truncate to a 32-bit word. -/
def w32 (n : Nat) : Nat := n % 4294967296

/-- Rotate a 32-bit word left by `k` bits. -/
def rotl (k b : Nat) : Nat := w32 ((b <<< k) ||| (b >>> (32 - k)))

/-- Big-endian byte expansion of `n` into `k` bytes. -/
def beBytes : Nat → Nat → List Nat
  | 0, _ => []
  | k + 1, n => ((n >>> (8 * k)) &&& 255) :: beBytes k n

/-- Group four big-endian bytes into one 32-bit word. -/
def toWords : List Nat → List Nat
  | a :: b :: c :: d :: rest => (((a * 256 + b) * 256 + c) * 256 + d) :: toWords rest
  | _ => []

/-- SHA-1 message schedule: extend the 16 chunk words to 80.  `ws` holds the
words produced so far, most recent first. -/
def extendWords : Nat → List Nat → List Nat
  | 0, ws => ws.reverse
  | n + 1, ws =>
    let nw := rotl 1 ((ws.getD 2 0) ^^^ (ws.getD 7 0) ^^^ (ws.getD 13 0) ^^^ (ws.getD 15 0))
    extendWords n (nw :: ws)

/-- SHA-1 round function and constant for round `i`. -/
def sha1FK (i b c d : Nat) : Nat × Nat :=
  if i < 20 then ((b &&& c) ||| ((b ^^^ 4294967295) &&& d), 1518500249)
  else if i < 40 then (b ^^^ c ^^^ d, 1859775393)
  else if i < 60 then ((b &&& c) ||| (b &&& d) ||| (c &&& d), 2400959708)
  else (b ^^^ c ^^^ d, 3395469782)

/-- SHA-1 compression of one 64-byte chunk into the running state. -/
def compressChunk (h : Nat × Nat × Nat × Nat × Nat) (chunk : List Nat) :
    Nat × Nat × Nat × Nat × Nat :=
  let ws := extendWords 64 (toWords chunk).reverse
  let st := ws.enum.foldl
    (fun (st : Nat × Nat × Nat × Nat × Nat) (iw : Nat × Nat) =>
      let (a, b, c, d, e) := st
      let fk := sha1FK iw.1 b c d
      (w32 (rotl 5 a + fk.1 + e + fk.2 + iw.2), a, rotl 30 b, c, d))
    h
  (w32 (h.1 + st.1), w32 (h.2.1 + st.2.1), w32 (h.2.2.1 + st.2.2.1),
   w32 (h.2.2.2.1 + st.2.2.2.1), w32 (h.2.2.2.2 + st.2.2.2.2))

/-- SHA-1 padding: append `0x80`, zero bytes up to 56 mod 64, then the
64-bit big-endian bit length. -/
def padMessage (msg : List Nat) : List Nat :=
  msg ++ [128] ++ List.replicate ((119 - msg.length % 64) % 64) 0 ++ beBytes 8 (msg.length * 8)

/-- Split a byte list into 64-byte chunks (structural fuel, one unit per
chunk; the initial fuel `l.length` always suffices). -/
def chunksGo : Nat → List Nat → List (List Nat)
  | 0, _ => []
  | _ + 1, [] => []
  | fuel + 1, l => l.take 64 :: chunksGo fuel (l.drop 64)

/-- SHA-1 digest (20 bytes) of a byte list. -/
def sha1 (msg : List Nat) : List Nat :=
  let padded := padMessage msg
  let hs := (chunksGo padded.length padded).foldl compressChunk
    (1732584193, 4023233417, 2562383102, 271733878, 3285377520)
  beBytes 4 hs.1 ++ beBytes 4 hs.2.1 ++ beBytes 4 hs.2.2.1 ++
  beBytes 4 hs.2.2.2.1 ++ beBytes 4 hs.2.2.2.2

/-- UTF-8 encoding of one character (as Python `str.encode("utf-8")`). -/
def utf8Char (c : Char) : List Nat :=
  let n := c.toNat
  if n < 128 then [n]
  else if n < 2048 then [192 ||| (n >>> 6), 128 ||| (n &&& 63)]
  else if n < 65536 then
    [224 ||| (n >>> 12), 128 ||| ((n >>> 6) &&& 63), 128 ||| (n &&& 63)]
  else
    [240 ||| (n >>> 18), 128 ||| ((n >>> 12) &&& 63),
     128 ||| ((n >>> 6) &&& 63), 128 ||| (n &&& 63)]

/-- UTF-8 encoding of a string. -/
def utf8Encode (s : String) : List Nat := (s.data.map utf8Char).flatten

/-- Lower-case hexadecimal digit. -/
def hexDigit (n : Nat) : Char := if n < 10 then Char.ofNat (48 + n) else Char.ofNat (87 + n)

/-- Two-digit lower-case hex rendering of a byte list. -/
def bytesHex (bs : List Nat) : String :=
  String.join (bs.map (fun b => String.mk [hexDigit (b / 16), hexDigit (b % 16)]))

/-- The 16 bytes of `uuid.NAMESPACE_URL`
(`6ba7b811-9dad-11d1-80b4-00c04fd430c8`). -/
def namespaceURL : List Nat :=
  [107, 167, 184, 17, 157, 173, 17, 209, 128, 180, 0, 192, 79, 212, 48, 200]

/-- RFC 4122 version-5 UUID of `name` under namespace `ns`, rendered as the
canonical lower-case hyphenated string (Python `str(uuid.uuid5(ns, name))`). -/
def uuid5 (ns : List Nat) (name : String) : String :=
  let digest := (sha1 (ns ++ utf8Encode name)).take 16
  let adj := digest.enum.map (fun (ib : Nat × Nat) =>
    if ib.1 = 6 then (ib.2 &&& 15) ||| 80
    else if ib.1 = 8 then (ib.2 &&& 63) ||| 128
    else ib.2)
  bytesHex (adj.take 4) ++ "-" ++ bytesHex ((adj.drop 4).take 2) ++ "-" ++
  bytesHex ((adj.drop 6).take 2) ++ "-" ++ bytesHex ((adj.drop 8).take 2) ++ "-" ++
  bytesHex (adj.drop 10)

/-- The canonical identity string `f"{owner}_{name}_{number}"` of
src/main.py line 537. -/
def canonicalIdString (owner repoName : String) (number : Nat) : String :=
  owner ++ "_" ++ repoName ++ "_" ++ toString number

/-- The unique upsert key computed at src/main.py lines 534-539:
`str(uuid.uuid5(uuid.NAMESPACE_URL, f"{owner}_{name}_{number}"))`. -/
def uniqueId (owner repoName : String) (number : Nat) : String :=
  uuid5 namespaceURL (canonicalIdString owner repoName number)

/-! ### Issues and `process_and_store_issues` -/

/-- A GitHub issue record as consumed by `process_and_store_issues`.
`has_comments_url` models the `"comments_url" in issue` membership test and
`is_pull_request` the `"pull_request" in issue` discriminator test. -/
structure Issue where
  number : Nat
  title : String
  body : Option String
  html_url : String
  state : String
  created_at : String
  updated_at : String
  closed_at : Option String
  labels : List String
  user : Option String
  has_comments_url : Bool
  comments_url : String
  is_pull_request : Bool
deriving Repr, DecidableEq

/-- The configuration fields of `GitHubIssueVectorizer.__init__` that the
processing pipeline reads. -/
structure Config where
  repo_owner : String
  repo_name : String
  collection_name : String
  batch_size : Nat
  include_comments : Bool
  vectorizer : String
deriving Repr, DecidableEq

/-- The repository key `f"{self.repo_owner}/{self.repo_name}"`. -/
def repoKey (cfg : Config) : String := cfg.repo_owner ++ "/" ++ cfg.repo_name

/-- The `issue_data` properties dict built at src/main.py lines 513-531. -/
structure IssueData where
  title : String
  body : Option String
  comments : Option String
  url : String
  number : Nat
  state : String
  createdAt : String
  updatedAt : String
  closedAt : Option String
  labels : Option (List String)
  author : Option String
  repository : String
  commentCount : Nat
deriving Repr, DecidableEq

/-- Build the `issue_data` dict for one issue (src/main.py lines 501-531).
`fetchComments` is the comment-fetch oracle standing for
`fetch_github_issue_comments(number, comments_url)`; it is consulted only
when comment inclusion is enabled and the record carries a `comments_url`. -/
def buildIssueData (cfg : Config) (fetchComments : Nat → String → List Comment)
    (issue : Issue) : IssueData :=
  let comments : List Comment :=
    if cfg.include_comments && issue.has_comments_url then
      fetchComments issue.number issue.comments_url
    else []
  let combined : Option String :=
    if cfg.include_comments && issue.has_comments_url then combineComments comments
    else none
  { title := issue.title
    body := if pythonTruthy issue.body then issue.body else none
    comments := combined
    url := issue.html_url
    number := issue.number
    state := issue.state
    createdAt := issue.created_at
    updatedAt := issue.updated_at
    closedAt := if pythonTruthy issue.closed_at then issue.closed_at else none
    labels := if issue.labels.isEmpty then none else some issue.labels
    author := issue.user
    repository := repoKey cfg
    commentCount := comments.length }

/-- A side effect issued against the document store by
`process_and_store_issues`. -/
inductive StoreEffect where
  | getCollection (name : String)
  | openBatch (batchSize : Nat)
  | addObject (objUuid : String) (properties : IssueData)
  | closeBatch
deriving Repr, DecidableEq

/-- Result of `process_and_store_issues`: the ordered store-effect trace and
the final summary log counts `(vectorized, skipped pull requests)`; the
summary is `none` on the empty-input early return. -/
structure ProcessResult where
  effects : List StoreEffect
  summary : Option (Nat × Nat)
deriving Repr, DecidableEq

/-- Embedding of `process_and_store_issues` (src/main.py lines 475-547): early return on
empty input; otherwise one collection lookup, one batch of capacity
`min(batch_size, 100)`, one `add_object` per non-pull-request issue keyed by
`uniqueId`, and a summary reporting `len(issues) - pull_requests` vectorized
and `pull_requests` skipped. -/
def processAndStoreIssues (cfg : Config) (fetchComments : Nat → String → List Comment)
    (issues : List Issue) : ProcessResult :=
  if issues.isEmpty then
    { effects := [], summary := none }
  else
    let adds := issues.filterMap (fun issue =>
      if issue.is_pull_request then none
      else some (StoreEffect.addObject
        (uniqueId cfg.repo_owner cfg.repo_name issue.number)
        (buildIssueData cfg fetchComments issue)))
    let pullRequests := (issues.filter (fun i => i.is_pull_request)).length
    { effects := [StoreEffect.getCollection cfg.collection_name,
                  StoreEffect.openBatch (min cfg.batch_size 100)] ++ adds ++
                 [StoreEffect.closeBatch]
      summary := some (issues.length - pullRequests, pullRequests) }

/-- Whether a store effect is an `add_object` call. -/
def isAddObject : StoreEffect → Bool
  | StoreEffect.addObject _ _ => true
  | _ => false

/-- The `add_object` calls of an effect trace, in order. -/
def addedObjects (pr : ProcessResult) : List StoreEffect :=
  pr.effects.filter isAddObject

/-! ### The metadata (watermark) collection -/

/-- An object of the `ProcessingState` metadata collection.  Its properties
dict may or may not carry each of the `repository` and
`lastProcessedTimestamp` keys, hence both are `Option`s; `oid` is the
store-assigned object uuid used by `data.update`. -/
structure MetaObject where
  oid : Nat
  repository : Option String
  lastProcessedTimestamp : Option Nat
deriving Repr, DecidableEq

/-- The `ProcessingState` collection: whether it exists, its objects in
fetch order, and the next fresh object uuid. -/
structure MetaStore where
  collectionExists : Bool
  objects : List MetaObject
  nextOid : Nat
deriving Repr, DecidableEq

/-- Embedding of `fetch_objects(filters=Filter.by_property("repository").equal(key))`:
objects whose `repository` property equals `key` (objects lacking the
property never match an equality filter). -/
def fetchObjectsByRepository (key : String) (objects : List MetaObject) : List MetaObject :=
  objects.filter (fun o => o.repository = some key)

/-- Embedding of `get_last_processed_timestamp` (src/main.py lines 173-185): `None` when
the metadata collection does not exist; otherwise the
`lastProcessedTimestamp` property of the first object matching the
repository filter, `None` when no object matches. -/
def getLastProcessedTimestamp (key : String) (s : MetaStore) : Option Nat :=
  if !s.collectionExists then none
  else
    match (fetchObjectsByRepository key s.objects).head? with
    | some o => o.lastProcessedTimestamp
    | none => none

/-- Embedding of `set_last_processed_timestamp` (src/main.py lines 187-208): look up
objects matching the repository filter; if any match, update the first one's
`lastProcessedTimestamp` in place (warning on multiple matches); otherwise
insert a new object whose properties are exactly
`{"lastProcessedTimestamp": timestamp}` — the code passes no `repository`
property on this insert path, so the new object's `repository` is absent. -/
def setLastProcessedTimestamp (key : String) (timestamp : Nat) (s : MetaStore) : MetaStore :=
  match (fetchObjectsByRepository key s.objects).head? with
  | some m =>
    { s with objects := s.objects.map (fun o =>
        if o.oid = m.oid then { o with lastProcessedTimestamp := some timestamp } else o) }
  | none =>
    { s with
      objects := s.objects ++
        [{ oid := s.nextOid, repository := none, lastProcessedTimestamp := some timestamp }]
      nextOid := s.nextOid + 1 }

/-! ### Connecting, schema management and the `run` orchestration -/

/-- Python exceptions distinguished by the embedding. -/
inductive PyErr where
  | valueError (msg : String)
  | attributeError (msg : String)
  | requestError (msg : String)
  | weaviateError (msg : String)
deriving Repr, DecidableEq

/-- The keys of `vectorizer_map` in `_get_vectorizer_method`
(src/main.py lines 73-81), in dict order. -/
def vectorizerNames : List String :=
  ["text2vec-weaviate", "text2vec-openai", "text2vec-transformers",
   "text2vec-contextionary", "text2vec_ollama", "text2vec-cohere", "text2vec-jinaai"]

/-- The `ValueError` message of src/main.py lines 83-85. -/
def invalidVectorizerMsg (v : String) : String :=
  "Invalid vectorizer: " ++ v ++ ". Valid vectorizers are: " ++
    String.intercalate ", " vectorizerNames

/-- Embedding of `_get_vectorizer_method` (src/main.py lines 71-87): a pure lookup that
raises `ValueError` naming the vectorizer when it is not a key of the map. -/
def getVectorizerMethod (v : String) : Except PyErr String :=
  if v ∈ vectorizerNames then Except.ok v
  else Except.error (PyErr.valueError (invalidVectorizerMsg v))

/-- Presence of the provider API-key environment variables consulted by
`_get_vectorizer_headers`. -/
structure EnvKeys where
  openai : Bool
  cohere : Bool
  jinaai : Bool
deriving Repr, DecidableEq

/-- Embedding of `_get_vectorizer_headers` (src/main.py lines 89-110): raises `ValueError`
when the configured provider's API key is missing from the environment;
any vectorizer other than the three provider-keyed ones — including names
outside the supported set — yields empty headers without validation. -/
def getVectorizerHeaders (v : String) (env : EnvKeys) : Except PyErr Unit :=
  if v = "text2vec-openai" then
    if env.openai then Except.ok () else
      Except.error (PyErr.valueError
        "OPENAI_APIKEY is not set, please set it in the environment variables.")
  else if v = "text2vec-cohere" then
    if env.cohere then Except.ok () else
      Except.error (PyErr.valueError
        "COHERE_APIKEY is not set, please set it in the environment variables.")
  else if v = "text2vec-jinaai" then
    if env.jinaai then Except.ok () else
      Except.error (PyErr.valueError
        "JINAAI_APIKEY is not set, please set it in the environment variables.")
  else Except.ok ()

/-- The store-side state a run touches: whether the issues collection
exists, and the metadata collection. -/
structure WvState where
  mainExists : Bool
  meta : MetaStore
deriving Repr, DecidableEq

/-- Outcomes of the external collaborators during one run: the network
connection attempt, the two collection-create calls, the primary issue
fetch, the batch upsert, the comment oracle, and `datetime.now()`. -/
structure StoreWorld where
  netConnect : Except PyErr Unit
  createMain : Except PyErr Unit
  createMeta : Except PyErr Unit
  fetchIssues : Except PyErr (List Issue)
  batchUpsert : Except PyErr Unit
  fetchComments : Nat → String → List Comment
  newTimestamp : Nat

/-- Observable milestones of a run, in order of occurrence. -/
inductive RunEvent where
  | netConnect
  | schemaEnsured
  | readWatermark
  | fetchedIssues
  | upserted
  | wroteWatermark
deriving Repr, DecidableEq

/-- Embedding of `_ensure_schema_exists` (src/main.py lines 316-473): if the issues
collection is absent, resolve the vectorizer method (which may raise
`ValueError`) and create the collection; then create the metadata collection
if absent.  When the issues collection already exists, no vectorizer
validation happens at all.  Returns the outcome and the resulting state. -/
def ensureSchemaExists (cfg : Config) (w : StoreWorld) (s : WvState) :
    Except PyErr Unit × WvState :=
  let mainStep : Except PyErr WvState :=
    if s.mainExists then Except.ok s
    else
      match getVectorizerMethod cfg.vectorizer with
      | Except.error e => Except.error e
      | Except.ok _ =>
        match w.createMain with
        | Except.error e => Except.error e
        | Except.ok _ => Except.ok { s with mainExists := true }
  match mainStep with
  | Except.error e => (Except.error e, s)
  | Except.ok s1 =>
    if s1.meta.collectionExists then (Except.ok (), s1)
    else
      match w.createMeta with
      | Except.error e => (Except.error e, s1)
      | Except.ok _ =>
        (Except.ok (), { s1 with meta := { s1.meta with collectionExists := true } })

/-- Outcome of `connect_to_weaviate`: result, resulting store state, whether
`self.client` got assigned (it is assigned by the connect call, before
`_ensure_schema_exists` runs), and the observable events. -/
structure ConnectResult where
  result : Except PyErr Unit
  st : WvState
  clientAssigned : Bool
  events : List RunEvent
deriving Repr

/-- Embedding of `connect_to_weaviate` (src/main.py lines 125-171): the headers argument
is evaluated first (and may raise before any connection); then the network
connection is attempted; only then is `_ensure_schema_exists` called.  The
method's own `except` clause just logs and re-raises. -/
def connectToWeaviate (cfg : Config) (env : EnvKeys) (w : StoreWorld) (s : WvState) :
    ConnectResult :=
  match getVectorizerHeaders cfg.vectorizer env with
  | Except.error e => ⟨Except.error e, s, false, []⟩
  | Except.ok _ =>
    match w.netConnect with
    | Except.error e => ⟨Except.error e, s, false, []⟩
    | Except.ok _ =>
      match ensureSchemaExists cfg w s with
      | (Except.error e, s1) => ⟨Except.error e, s1, true, [RunEvent.netConnect]⟩
      | (Except.ok _, s1) =>
        ⟨Except.ok (), s1, true, [RunEvent.netConnect, RunEvent.schemaEnsured]⟩

/-- The `AttributeError` message Python produces when `run`'s error handler
evaluates `self.client.close()` although `self.client` was never assigned. -/
def clientAttrErrorMsg : String :=
  "'GitHubIssueVectorizer' object has no attribute 'client'"

/-- Result of one `run`: outcome, final store state, events. -/
structure RunResult where
  result : Except PyErr Unit
  st : WvState
  events : List RunEvent
deriving Repr

/-- The `try` body of `run` (src/main.py lines 551-574): connect, read the
watermark, fetch issues since it, process and batch-upsert them, then write
the new watermark.  The boolean records whether `self.client` exists. -/
def runTryBody (cfg : Config) (env : EnvKeys) (w : StoreWorld) (s : WvState) :
    Except PyErr Unit × WvState × Bool × List RunEvent :=
  let c := connectToWeaviate cfg env w s
  match c.result with
  | Except.error e => (Except.error e, c.st, c.clientAssigned, c.events)
  | Except.ok _ =>
    match w.fetchIssues with
    | Except.error e =>
      (Except.error e, c.st, true, c.events ++ [RunEvent.readWatermark])
    | Except.ok issues =>
      match (if issues.isEmpty then Except.ok () else w.batchUpsert) with
      | Except.error e =>
        (Except.error e, c.st, true,
         c.events ++ [RunEvent.readWatermark, RunEvent.fetchedIssues])
      | Except.ok _ =>
        (Except.ok (),
         { c.st with meta := setLastProcessedTimestamp (repoKey cfg) w.newTimestamp c.st.meta },
         true,
         c.events ++ [RunEvent.readWatermark, RunEvent.fetchedIssues,
                      RunEvent.upserted, RunEvent.wroteWatermark])

/-- Embedding of `run` (src/main.py lines 549-578).  On failure the `except` clause runs
`self.client.close()` before its bare `raise`: when the client was assigned
this closes it and re-raises the original error, but when the failure
happened before `self.client` was assigned the close itself raises
`AttributeError`, which replaces the original error. -/
def run (cfg : Config) (env : EnvKeys) (w : StoreWorld) (s : WvState) : RunResult :=
  match runTryBody cfg env w s with
  | (Except.ok _, s1, _, evs) => ⟨Except.ok (), s1, evs⟩
  | (Except.error e, s1, clientAssigned, evs) =>
    if clientAssigned then ⟨Except.error e, s1, evs⟩
    else ⟨Except.error (PyErr.attributeError clientAttrErrorMsg), s1, evs⟩

/-! ### Helper lemmas -/

/-- A `filterMap` that keeps `f a` exactly when `p a` holds is the `filter`
followed by the `map`. -/
theorem filterMap_if_eq {α β : Type _} (p : α → Bool) (f : α → β) (l : List α) :
    l.filterMap (fun a => if p a then some (f a) else none) = (l.filter p).map f := by
  induction l with
  | nil => rfl
  | cons x xs ih =>
    by_cases h : p x <;> simp [List.filterMap_cons, List.filter_cons, h, ih]

/-- A `filterMap` that drops exactly the elements satisfying `p`. -/
theorem filterMap_if_none_eq {α β : Type _} (p : α → Bool) (f : α → β) (l : List α) :
    l.filterMap (fun a => if p a then none else some (f a)) =
      (l.filter (fun a => !p a)).map f := by
  induction l with
  | nil => rfl
  | cons x xs ih =>
    by_cases h : p x <;> simp [List.filterMap_cons, List.filter_cons, h, ih]

/-- Any fuel exceeding the server's record count is enough for the issue
paginator, and the loop always issues `length / 100 + 1` requests (the short
terminal page counts as one) and collects every record in order. -/
theorem fetchIssuesGo_eq {α : Type _} : ∀ (fuel : Nat) (remaining : List α),
    remaining.length < fuel →
    fetchIssuesGo fuel remaining = (remaining.length / 100 + 1, remaining) := by
  intro fuel
  induction fuel with
  | zero => intro r h; exact absurd h (Nat.not_lt_zero _)
  | succ n ih =>
    intro r h
    simp only [fetchIssuesGo]
    by_cases hc : (r.take 100).length < 100
    · rw [if_pos hc]
      rw [List.length_take] at hc
      have hr : r.length < 100 := by omega
      rw [List.take_of_length_le (Nat.le_of_lt hr), Nat.div_eq_of_lt hr]
    · rw [if_neg hc]
      rw [List.length_take] at hc
      have h100 : 100 ≤ r.length := by omega
      have hdrop : (r.drop 100).length < n := by rw [List.length_drop]; omega
      rw [ih (r.drop 100) hdrop]
      simp only [List.length_drop]
      rw [List.take_append_drop]
      congr 1
      omega

/-- When the request for page `q` fails and the loop is at page `p ≤ q`, the
comment paginator returns exactly the records of the pages before `q`
(the whole suffix when it is exhausted earlier). -/
theorem fetchCommentsGo_fail {α : Type _} : ∀ (fuel p q : Nat) (remaining : List α),
    remaining.length < fuel → p ≤ q →
    fetchCommentsGo fuel (some q) p remaining = remaining.take ((q - p) * 100) := by
  intro fuel
  induction fuel with
  | zero => intro p q r h _; exact absurd h (Nat.not_lt_zero _)
  | succ n ih =>
    intro p q r h hpq
    simp only [fetchCommentsGo]
    by_cases hqp : q = p
    · simp [hqp]
    · have hlt : p < q := lt_of_le_of_ne hpq (fun e => hqp e.symm)
      rw [if_neg (by simpa using hqp)]
      by_cases hc : (r.take 100).length < 100
      · rw [if_pos hc]
        rw [List.length_take] at hc
        have hr : r.length < 100 := by omega
        rw [List.take_of_length_le (Nat.le_of_lt hr),
            List.take_of_length_le (le_trans (Nat.le_of_lt hr)
              (le_trans (by omega : (100 : Nat) ≤ (q - p) * 100) (le_refl _)))]
      · rw [if_neg hc]
        rw [List.length_take] at hc
        have h100 : 100 ≤ r.length := by omega
        have hdrop : (r.drop 100).length < n := by rw [List.length_drop]; omega
        rw [ih (p + 1) q (r.drop 100) hdrop (by omega)]
        have hsplit : (q - p) * 100 = 100 + (q - (p + 1)) * 100 := by
          have hq : q - p = 1 + (q - (p + 1)) := by omega
          rw [hq, Nat.add_mul, Nat.one_mul]
        rw [hsplit, List.take_add]

/-- The `add_object` trace of `process_and_store_issues` is exactly one add
per non-pull-request input issue, in input order. -/
theorem addedObjects_processAndStoreIssues (cfg : Config)
    (fc : Nat → String → List Comment) (issues : List Issue) :
    addedObjects (processAndStoreIssues cfg fc issues) =
      (issues.filter (fun i => !i.is_pull_request)).map
        (fun i => StoreEffect.addObject (uniqueId cfg.repo_owner cfg.repo_name i.number)
          (buildIssueData cfg fc i)) := by
  unfold processAndStoreIssues addedObjects
  by_cases h : issues.isEmpty
  · rw [if_pos h]
    rw [List.isEmpty_iff] at h
    subst h
    rfl
  · rw [if_neg h]
    simp only
    rw [filterMap_if_none_eq (fun i => i.is_pull_request)
      (fun i => StoreEffect.addObject (uniqueId cfg.repo_owner cfg.repo_name i.number)
        (buildIssueData cfg fc i)) issues]
    simp [List.filter_append, List.filter_cons, isAddObject, List.filter_map,
      Function.comp_def]

/-- The method `_ensure_schema_exists` never touches the metadata objects. -/
theorem ensureSchemaExists_meta_objects (cfg : Config) (w : StoreWorld) (s : WvState) :
    ((ensureSchemaExists cfg w s).2).meta.objects = s.meta.objects := by
  by_cases hm : s.mainExists <;>
  rcases hv : getVectorizerMethod cfg.vectorizer with ev | ov <;>
  rcases hcm : w.createMain with e1 | u1 <;>
  rcases hct : w.createMeta with e2 | u2 <;>
  by_cases hme : s.meta.collectionExists <;>
  simp [ensureSchemaExists, hm, hv, hcm, hct, hme]

/-- On a well-formed store (an absent metadata collection holds no objects),
`_ensure_schema_exists` leaves the watermark read unchanged: it can create
the metadata collection, but an empty fresh collection still answers
"never processed". -/
theorem ensureSchemaExists_getLast (cfg : Config) (w : StoreWorld) (s : WvState)
    (key : String) (hwf : s.meta.collectionExists = false → s.meta.objects = []) :
    getLastProcessedTimestamp key ((ensureSchemaExists cfg w s).2).meta =
      getLastProcessedTimestamp key s.meta := by
  by_cases hm : s.mainExists <;>
  rcases hv : getVectorizerMethod cfg.vectorizer with ev | ov <;>
  rcases hcm : w.createMain with e1 | u1 <;>
  rcases hct : w.createMeta with e2 | u2 <;>
  by_cases hme : s.meta.collectionExists <;>
  simp [ensureSchemaExists, getLastProcessedTimestamp, fetchObjectsByRepository,
    hm, hv, hcm, hct, hme, hwf]

/-! ### Claim theorems -/

set_option maxRecDepth 10000

/-- A metadata collection that exists but holds no records yet. -/
def freshMetaStore : MetaStore := ⟨true, [], 0⟩

/-- A metadata collection holding one well-formed watermark record for
`owner/repo`. -/
def keyedMetaStore : MetaStore := ⟨true, [⟨5, some "owner/repo", some 7⟩], 6⟩

/-- C1 (code bug): on a store with no prior record for the repository key,
`set_last_processed_timestamp` followed by `get_last_processed_timestamp`
returns absent, not the timestamp just written: the insert at src/main.py
lines 206-208 passes only `lastProcessedTimestamp` and omits the
`repository` property, so the repository-filtered lookup never matches the
inserted record (second conjunct exhibits the keyless record).  The update
path (third conjunct) behaves as the claim expects, isolating the bug to
the insert path. -/
theorem watermark_insert_unfindable :
    getLastProcessedTimestamp "owner/repo"
        (setLastProcessedTimestamp "owner/repo" 42 freshMetaStore) = none
    ∧ (setLastProcessedTimestamp "owner/repo" 42 freshMetaStore).objects =
        [{ oid := 0, repository := none, lastProcessedTimestamp := some 42 }]
    ∧ getLastProcessedTimestamp "owner/repo"
        (setLastProcessedTimestamp "owner/repo" 42 keyedMetaStore) = some 42 :=
  ⟨rfl, rfl, rfl⟩

/-- C4: against a source of `N` records at page size 100,
`fetch_github_issues` issues `⌈N/100⌉` page requests when `N` is not a
multiple of 100, and `N/100 + 1` requests (the last an empty terminator
page) when it is a positive multiple, and returns all records in page
order. -/
theorem pagination_request_count {α : Type _} (server : List α) :
    (server.length % 100 ≠ 0 →
      (fetchGithubIssues server).1 = (server.length + 99) / 100)
    ∧ (server.length % 100 = 0 → 0 < server.length →
      (fetchGithubIssues server).1 = server.length / 100 + 1)
    ∧ (fetchGithubIssues server).2 = server := by
  have h := fetchIssuesGo_eq (server.length + 1) server (Nat.lt_succ_self _)
  unfold fetchGithubIssues
  rw [h]
  exact ⟨fun h1 => by simp only; omega, fun _ _ => rfl, rfl⟩

/-- Closed instance of `pagination_request_count`: 3 records need one
request; 200 records need three (two full pages and the empty terminator). -/
theorem pagination_request_count_witness :
    ((List.replicate 3 (0 : Nat)).length % 100 ≠ 0
      ∧ (fetchGithubIssues (List.replicate 3 (0 : Nat))).1 = 1)
    ∧ ((List.replicate 200 (0 : Nat)).length % 100 = 0
      ∧ 0 < (List.replicate 200 (0 : Nat)).length
      ∧ (fetchGithubIssues (List.replicate 200 (0 : Nat))).1 = 3) := by
  refine ⟨⟨by simp, ?_⟩, by simp, by simp, ?_⟩
  · have h := (pagination_request_count (List.replicate 3 (0 : Nat))).1 (by simp)
    simpa using h
  · have h := (pagination_request_count (List.replicate 200 (0 : Nat))).2.1
      (by simp) (by simp)
    simpa using h

/-- C5: the upsert key is `uuid5(NAMESPACE_URL, f"{owner}_{name}_{number}")`;
it is a deterministic function of the canonical identity string (so
re-syncing the same issue derives the identical key), and the embedded
RFC 4122 chain is validated on a concrete input against CPython's
`uuid.uuid5`. -/
theorem identity_mapper_deterministic :
    (∀ (owner repoName : String) (number : Nat),
        uniqueId owner repoName number =
          uuid5 namespaceURL (canonicalIdString owner repoName number))
    ∧ (∀ (o n : String) (k : Nat) (o' n' : String) (k' : Nat),
        canonicalIdString o n k = canonicalIdString o' n' k' →
        uniqueId o n k = uniqueId o' n' k')
    ∧ uniqueId "owner" "repo" 1 = "c6503ef0-64a3-57d0-9b90-ccee63628b87" := by
  refine ⟨fun _ _ _ => rfl, fun o n k o' n' k' h => ?_, ?_⟩
  · unfold uniqueId
    rw [h]
  · decide

/-- Closed instance of `identity_mapper_deterministic`: deriving the key for
`owner/repo` issue 1 twice yields the identical identifier. -/
theorem identity_mapper_deterministic_witness :
    uniqueId "owner" "repo" 1 = uniqueId "owner" "repo" 1
    ∧ uniqueId "owner" "repo" 1 = "c6503ef0-64a3-57d0-9b90-ccee63628b87" :=
  ⟨identity_mapper_deterministic.2.1 "owner" "repo" 1 "owner" "repo" 1 rfl,
   identity_mapper_deterministic.2.2⟩

/-- C6: `_combine_comments` equals the specification's rendering — the
non-empty-body comments in source order, each as an author-tagged block,
joined by a blank line; the spec's concrete two-comment example holds; and
with zero non-empty bodies the result is absent (`none`), never `some ""`. -/
theorem comment_assembly :
    (∀ comments : List Comment, combineComments comments = specCombinedField comments)
    ∧ combineComments [⟨some "alice", some "First"⟩, ⟨some "bob", some "Second"⟩]
        = some "[alice]: First\n\n[bob]: Second"
    ∧ (∀ comments : List Comment,
        (∀ c ∈ comments, pythonTruthy c.body = false) →
        combineComments comments = none) := by
  have hrepr : ∀ cs : List Comment, cs.filterMap commentText =
      (cs.filter (fun c => pythonTruthy c.body)).map renderComment := by
    intro cs
    have hc : commentText =
        fun c => if pythonTruthy c.body then some (renderComment c) else none := rfl
    rw [hc, filterMap_if_eq]
  refine ⟨fun cs => ?_, by decide, fun cs h => ?_⟩
  · unfold combineComments specCombinedField
    simp only [hrepr]
    cases hf : cs.filter (fun c => pythonTruthy c.body) with
    | nil => simp
    | cons x xs => simp
  · unfold combineComments
    simp only [hrepr]
    have hnil : cs.filter (fun c => pythonTruthy c.body) = [] := by
      induction cs with
      | nil => rfl
      | cons x xs ih =>
        rw [List.filter_cons, if_neg (by simp [h x (List.mem_cons_self x xs)])]
        exact ih (fun c hc => h c (List.mem_cons_of_mem x hc))
    rw [hnil]
    rfl

/-- Closed instance of `comment_assembly`: a list whose comments all have
falsy bodies (one empty, one null) combines to `none`. -/
theorem comment_assembly_witness :
    combineComments [⟨some "x", some ""⟩, ⟨some "y", none⟩] = none :=
  comment_assembly.2.2 _ (by decide)

/-- C9: a comment with a non-empty body but a null user renders with the
placeholder author `unknown` — both for its individual block and through
`_combine_comments` — rather than being skipped or failing. -/
theorem null_user_unknown_author :
    ∀ b : String, b ≠ "" →
      commentText ⟨none, some b⟩ = some ("[unknown]: " ++ b)
      ∧ combineComments [⟨none, some b⟩] = some ("[unknown]: " ++ b) := by
  intro b hb
  have ht : pythonTruthy (some b) = true := by simp [pythonTruthy, hb]
  have h1 : commentText ⟨none, some b⟩ = some ("[unknown]: " ++ b) := by
    rw [commentText]
    rw [ht]
    rfl
  refine ⟨h1, ?_⟩
  rw [combineComments]
  simp only [List.filterMap, h1]
  rfl

/-- Closed instance of `null_user_unknown_author` at body `"hi"`. -/
theorem null_user_unknown_author_witness :
    ("hi" : String) ≠ ""
    ∧ combineComments [⟨none, some "hi"⟩] = some "[unknown]: hi" :=
  ⟨by decide, (null_user_unknown_author "hi" (by decide)).2⟩

/-- C10: on the empty input list `process_and_store_issues` returns
immediately with an empty store-effect trace — no collection lookup, no
batch, no object write — and no summary. -/
theorem empty_input_returns_without_store_ops (cfg : Config)
    (fc : Nat → String → List Comment) :
    processAndStoreIssues cfg fc [] = ⟨[], none⟩ := rfl

/-- C7: the batch receives exactly one `add_object` per non-pull-request
input issue (so no record carrying the `pull_request` discriminator is ever
added), and the summary reports the pull-request count as excluded and
`len(issues) -` that count as synced. -/
theorem type_filtering (cfg : Config) (fc : Nat → String → List Comment)
    (issues : List Issue) :
    addedObjects (processAndStoreIssues cfg fc issues) =
      (issues.filter (fun i => !i.is_pull_request)).map
        (fun i => StoreEffect.addObject (uniqueId cfg.repo_owner cfg.repo_name i.number)
          (buildIssueData cfg fc i))
    ∧ (processAndStoreIssues cfg fc issues).summary =
        (if issues.isEmpty then none
         else some (issues.length - (issues.filter (fun i => i.is_pull_request)).length,
                    (issues.filter (fun i => i.is_pull_request)).length)) := by
  refine ⟨addedObjects_processAndStoreIssues cfg fc issues, ?_⟩
  unfold processAndStoreIssues
  by_cases h : issues.isEmpty
  · rw [if_pos h, if_pos h]
  · rw [if_neg h, if_neg h]

/-- A sample comment record. -/
def sampleComment : Comment := ⟨some "alice", some "hello"⟩

/-- A sample non-pull-request issue record. -/
def sampleIssue : Issue :=
  ⟨1, "Title", some "body", "http://x", "open", "2020-01-01", "2020-01-02",
   none, [], some "alice", true, "http://x/comments", false⟩

/-- A sample run configuration. -/
def cfg0 : Config := ⟨"owner", "repo", "GitHubIssues", 100, true, "text2vec-weaviate"⟩

/-- C8 counterexample: when the comment listing holds 100 comments on page 1
and the request for page 2 fails, `fetch_github_issue_comments` returns the
100 already-fetched comments — the failure is NOT treated as "zero child
records for this parent". -/
theorem comment_fetch_failure_not_zero :
    fetchGithubIssueComments (List.replicate 100 sampleComment) (some 2) =
      List.replicate 100 sampleComment
    ∧ List.replicate 100 sampleComment ≠ ([] : List Comment) := by
  constructor
  · have h := fetchCommentsGo_fail ((List.replicate 100 sampleComment).length + 1) 1 2
      (List.replicate 100 sampleComment) (Nat.lt_succ_self _) (by omega)
    unfold fetchGithubIssueComments
    rw [h]
    simp
  · simp

/-- C8 (amended): a failing comment-listing request never raises out of
`fetch_github_issue_comments`; the function returns exactly the comments of
the pages fetched before the failing page (empty when page 1 fails), and the
parent issue is still processed and added to the batch with that — possibly
empty, possibly partial — child content. -/
theorem comment_fetch_failure_partial (server : List Comment) (p : Nat) (hp : 1 ≤ p) :
    fetchGithubIssueComments server (some p) = server.take ((p - 1) * 100)
    ∧ fetchGithubIssueComments server (some 1) = []
    ∧ ∀ (cfg : Config) (i : Issue), i.is_pull_request = false →
        addedObjects (processAndStoreIssues cfg
            (fun _ _ => fetchGithubIssueComments server (some p)) [i]) =
          [StoreEffect.addObject (uniqueId cfg.repo_owner cfg.repo_name i.number)
            (buildIssueData cfg (fun _ _ => fetchGithubIssueComments server (some p)) i)] := by
  refine ⟨?_, ?_, fun cfg i hi => ?_⟩
  · have h := fetchCommentsGo_fail (server.length + 1) 1 p server (Nat.lt_succ_self _) hp
    unfold fetchGithubIssueComments
    rw [h]
  · have h := fetchCommentsGo_fail (server.length + 1) 1 1 server (Nat.lt_succ_self _) le_rfl
    unfold fetchGithubIssueComments
    rw [h]
    simp
  · rw [addedObjects_processAndStoreIssues]
    rw [List.filter_cons, if_pos (by simp [hi])]
    rfl

/-- Closed instance of `comment_fetch_failure_partial`: a first-page failure
yields zero comments and the parent issue is still added to the batch. -/
theorem comment_fetch_failure_partial_witness :
    (1 ≤ 1)
    ∧ fetchGithubIssueComments [sampleComment] (some 1) = ([] : List Comment)
    ∧ addedObjects (processAndStoreIssues cfg0
        (fun _ _ => fetchGithubIssueComments [sampleComment] (some 1)) [sampleIssue]) =
      [StoreEffect.addObject (uniqueId cfg0.repo_owner cfg0.repo_name sampleIssue.number)
        (buildIssueData cfg0
          (fun _ _ => fetchGithubIssueComments [sampleComment] (some 1)) sampleIssue)] := by
  have h := comment_fetch_failure_partial [sampleComment] 1 (le_refl 1)
  exact ⟨le_refl 1, h.2.1, h.2.2 cfg0 sampleIssue rfl⟩

/-- An environment with all provider API keys present. -/
def env0 : EnvKeys := ⟨true, true, true⟩

/-- A fresh store: no collections yet. -/
def state0 : WvState := ⟨false, ⟨false, [], 0⟩⟩

/-- A store where both collections already exist (and hold no records). -/
def stateMainExists : WvState := ⟨true, ⟨true, [], 0⟩⟩

/-- A world in which every collaborator call succeeds and the fetch returns
no issues. -/
def worldAllOk : StoreWorld :=
  ⟨Except.ok (), Except.ok (), Except.ok (), Except.ok [], Except.ok (), fun _ _ => [], 99⟩

/-- A world whose network connection attempt fails. -/
def worldConnectFail : StoreWorld :=
  { worldAllOk with netConnect := Except.error (PyErr.weaviateError "connection refused") }

/-- A world whose primary issue fetch fails. -/
def worldFetchFail : StoreWorld :=
  { worldAllOk with fetchIssues := Except.error (PyErr.requestError "rate limited") }

/-- A watermark write appears in a run's event trace only as the last event
of the full success trace, after the batch upsert. -/
theorem run_wrote_mem (cfg : Config) (env : EnvKeys) (w : StoreWorld) (s : WvState)
    (h : RunEvent.wroteWatermark ∈ (run cfg env w s).events) :
    (run cfg env w s).events =
      [RunEvent.netConnect, RunEvent.schemaEnsured, RunEvent.readWatermark,
       RunEvent.fetchedIssues, RunEvent.upserted, RunEvent.wroteWatermark]
    ∧ (run cfg env w s).result = Except.ok () := by
  rcases hh : getVectorizerHeaders cfg.vectorizer env with eh | uh
  · simp [run, runTryBody, connectToWeaviate, hh] at h
  · rcases hn : w.netConnect with en | un
    · simp [run, runTryBody, connectToWeaviate, hh, hn] at h
    · rcases he : ensureSchemaExists cfg w s with ⟨res1, s1⟩
      rcases res1 with ee | ue
      · simp [run, runTryBody, connectToWeaviate, hh, hn, he] at h
      · rcases hf : w.fetchIssues with ef | issues
        · simp [run, runTryBody, connectToWeaviate, hh, hn, he, hf] at h
        · by_cases hie : issues.isEmpty
          · constructor <;>
              simp [run, runTryBody, connectToWeaviate, hh, hn, he, hf, hie]
          · rcases hu : w.batchUpsert with eu | uu
            · simp [run, runTryBody, connectToWeaviate, hh, hn, he, hf, hie, hu] at h
            · constructor <;>
                simp [run, runTryBody, connectToWeaviate, hh, hn, he, hf, hie, hu]

/-- A failed run's final metadata is either the initial one or the one
`_ensure_schema_exists` left behind (whose records are the initial ones). -/
theorem run_error_meta (cfg : Config) (env : EnvKeys) (w : StoreWorld) (s : WvState)
    (e : PyErr) (h : (run cfg env w s).result = Except.error e) :
    ((run cfg env w s).st).meta = s.meta
    ∨ ((run cfg env w s).st).meta = ((ensureSchemaExists cfg w s).2).meta := by
  rcases hh : getVectorizerHeaders cfg.vectorizer env with eh | uh
  · left
    simp [run, runTryBody, connectToWeaviate, hh]
  · rcases hn : w.netConnect with en | un
    · left
      simp [run, runTryBody, connectToWeaviate, hh, hn]
    · rcases he : ensureSchemaExists cfg w s with ⟨res1, s1⟩
      rcases res1 with ee | ue
      · right
        simp [run, runTryBody, connectToWeaviate, hh, hn, he]
      · rcases hf : w.fetchIssues with ef | issues
        · right
          simp [run, runTryBody, connectToWeaviate, hh, hn, he, hf]
        · by_cases hie : issues.isEmpty
          · exfalso
            simp [run, runTryBody, connectToWeaviate, hh, hn, he, hf, hie] at h
          · rcases hu : w.batchUpsert with eu | uu
            · right
              simp [run, runTryBody, connectToWeaviate, hh, hn, he, hf, hie, hu]
            · exfalso
              simp [run, runTryBody, connectToWeaviate, hh, hn, he, hf, hie, hu] at h

/-- When the client was created (connect succeeded) and the primary fetch
fails, `run` re-raises the fetch error unchanged. -/
theorem run_fetch_error (cfg : Config) (env : EnvKeys) (w : StoreWorld) (s : WvState)
    (e : PyErr) (hc : (connectToWeaviate cfg env w s).result = Except.ok ())
    (hf : w.fetchIssues = Except.error e) :
    (run cfg env w s).result = Except.error e := by
  rcases hcw : connectToWeaviate cfg env w s with ⟨res, st, ca, evs⟩
  rw [hcw] at hc
  simp only at hc
  subst hc
  simp [run, runTryBody, hcw, hf]

/-- When connect succeeded, issues were fetched and the batch upsert fails,
`run` re-raises the upsert error unchanged. -/
theorem run_upsert_error (cfg : Config) (env : EnvKeys) (w : StoreWorld) (s : WvState)
    (e : PyErr) (issues : List Issue)
    (hc : (connectToWeaviate cfg env w s).result = Except.ok ())
    (hf : w.fetchIssues = Except.ok issues) (hne : issues.isEmpty = false)
    (hu : w.batchUpsert = Except.error e) :
    (run cfg env w s).result = Except.error e := by
  rcases hcw : connectToWeaviate cfg env w s with ⟨res, st, ca, evs⟩
  rw [hcw] at hc
  simp only at hc
  subst hc
  simp [run, runTryBody, hcw, hf, hne, hu]

/-- When the headers were fine, connect succeeded and `_ensure_schema_exists`
fails, `run` re-raises the schema error unchanged (the client exists). -/
theorem run_ensure_error (cfg : Config) (env : EnvKeys) (w : StoreWorld) (s : WvState)
    (e : PyErr) (hh : getVectorizerHeaders cfg.vectorizer env = Except.ok ())
    (hn : w.netConnect = Except.ok ())
    (he : (ensureSchemaExists cfg w s).1 = Except.error e) :
    (run cfg env w s).result = Except.error e := by
  rcases hes : ensureSchemaExists cfg w s with ⟨res1, s1⟩
  rw [hes] at he
  simp only at he
  subst he
  simp [run, runTryBody, connectToWeaviate, hh, hn, hes]

/-- When the network connection attempt itself fails, `self.client` was
never assigned, so the error handler's `self.client.close()` raises
`AttributeError`, replacing the original connection error. -/
theorem run_netfail_masked (cfg : Config) (env : EnvKeys) (w : StoreWorld) (s : WvState)
    (e : PyErr) (hh : getVectorizerHeaders cfg.vectorizer env = Except.ok ())
    (hn : w.netConnect = Except.error e) :
    (run cfg env w s).result = Except.error (PyErr.attributeError clientAttrErrorMsg) := by
  simp [run, runTryBody, connectToWeaviate, hh, hn]

/-- C2 counterexample: when connecting raises (here a refused connection),
`run` does NOT re-raise that error — `self.client` was never assigned, so
the error handler's `self.client.close()` raises `AttributeError` instead. -/
theorem run_connect_error_masked :
    worldConnectFail.netConnect = Except.error (PyErr.weaviateError "connection refused")
    ∧ (run cfg0 env0 worldConnectFail state0).result =
        Except.error (PyErr.attributeError clientAttrErrorMsg)
    ∧ (run cfg0 env0 worldConnectFail state0).result ≠
        Except.error (PyErr.weaviateError "connection refused") := by
  refine ⟨rfl, rfl, fun h => ?_⟩
  rw [show (run cfg0 env0 worldConnectFail state0).result =
      Except.error (PyErr.attributeError clientAttrErrorMsg) from rfl] at h
  simp at h

/-- C2 (amended): a failing run performs no watermark write — the watermark
read is unchanged and the metadata records untouched — and the watermark
write event occurs only at the end of the full success trace, after the
upsert.  Fetch, upsert and schema errors are re-raised unchanged (the client
exists by then); a network-connect failure still propagates an error, but
masked as the `AttributeError` the cleanup raises because `self.client` was
never assigned. -/
theorem run_failure_atomicity (cfg : Config) (env : EnvKeys) (w : StoreWorld)
    (s : WvState) (hwf : s.meta.collectionExists = false → s.meta.objects = []) :
    (RunEvent.wroteWatermark ∈ (run cfg env w s).events →
      (run cfg env w s).events =
        [RunEvent.netConnect, RunEvent.schemaEnsured, RunEvent.readWatermark,
         RunEvent.fetchedIssues, RunEvent.upserted, RunEvent.wroteWatermark]
      ∧ (run cfg env w s).result = Except.ok ())
    ∧ (∀ e, (run cfg env w s).result = Except.error e →
        getLastProcessedTimestamp (repoKey cfg) ((run cfg env w s).st).meta =
          getLastProcessedTimestamp (repoKey cfg) s.meta
        ∧ ((run cfg env w s).st).meta.objects = s.meta.objects
        ∧ RunEvent.wroteWatermark ∉ (run cfg env w s).events)
    ∧ (∀ e, (connectToWeaviate cfg env w s).result = Except.ok () →
        w.fetchIssues = Except.error e → (run cfg env w s).result = Except.error e)
    ∧ (∀ e issues, (connectToWeaviate cfg env w s).result = Except.ok () →
        w.fetchIssues = Except.ok issues → issues.isEmpty = false →
        w.batchUpsert = Except.error e → (run cfg env w s).result = Except.error e)
    ∧ (∀ e, getVectorizerHeaders cfg.vectorizer env = Except.ok () →
        w.netConnect = Except.ok () →
        (ensureSchemaExists cfg w s).1 = Except.error e →
        (run cfg env w s).result = Except.error e)
    ∧ (∀ e, getVectorizerHeaders cfg.vectorizer env = Except.ok () →
        w.netConnect = Except.error e →
        (run cfg env w s).result =
          Except.error (PyErr.attributeError clientAttrErrorMsg)) := by
  refine ⟨run_wrote_mem cfg env w s, fun e h => ?_,
    fun e hc hf => run_fetch_error cfg env w s e hc hf,
    fun e issues hc hf hne hu => run_upsert_error cfg env w s e issues hc hf hne hu,
    fun e hh hn he => run_ensure_error cfg env w s e hh hn he,
    fun e hh hn => run_netfail_masked cfg env w s e hh hn⟩
  have hmeta := run_error_meta cfg env w s e h
  refine ⟨?_, ?_, fun hmem => ?_⟩
  · rcases hmeta with h1 | h1
    · rw [h1]
    · rw [h1, ensureSchemaExists_getLast cfg w s _ hwf]
  · rcases hmeta with h1 | h1
    · rw [h1]
    · rw [h1, ensureSchemaExists_meta_objects]
  · have hok := (run_wrote_mem cfg env w s hmem).2
    rw [h] at hok
    simp at hok

/-- Closed instance of `run_failure_atomicity`: a rate-limited primary fetch
is re-raised unchanged and leaves the watermark read unchanged. -/
theorem run_failure_atomicity_witness :
    (state0.meta.collectionExists = false → state0.meta.objects = [])
    ∧ (run cfg0 env0 worldFetchFail state0).result =
        Except.error (PyErr.requestError "rate limited")
    ∧ getLastProcessedTimestamp (repoKey cfg0) ((run cfg0 env0 worldFetchFail state0).st).meta =
        getLastProcessedTimestamp (repoKey cfg0) state0.meta := by
  have h := run_failure_atomicity cfg0 env0 worldFetchFail state0 (fun _ => rfl)
  have hres := h.2.2.1 (PyErr.requestError "rate limited") rfl rfl
  exact ⟨fun _ => rfl, hres, (h.2.1 _ hres).1⟩

/-- A vectorizer name outside the supported set is none of the three
provider-keyed names, so `_get_vectorizer_headers` silently returns empty
headers for it — no validation happens there. -/
theorem headers_ok_of_not_supported (v : String) (env : EnvKeys)
    (hv : v ∉ vectorizerNames) : getVectorizerHeaders v env = Except.ok () := by
  have h1 : v ≠ "text2vec-openai" := fun h => hv (by rw [h]; decide)
  have h2 : v ≠ "text2vec-cohere" := fun h => hv (by rw [h]; decide)
  have h3 : v ≠ "text2vec-jinaai" := fun h => hv (by rw [h]; decide)
  unfold getVectorizerHeaders
  rw [if_neg h1, if_neg h2, if_neg h3]

/-- A configuration requesting an unsupported vectorizer. -/
def cfgBadVec : Config := ⟨"owner", "repo", "GitHubIssues", 100, true, "text2vec-fake"⟩

/-- A small configuration requesting the unsupported vectorizer `foo`. -/
def cfgFoo : Config := ⟨"o", "r", "C", 10, false, "foo"⟩

/-- C3 counterexample: with an invalid vectorizer on a fresh store, the run
does fail with the `ValueError` naming it, but only after the network
connection succeeded (the sole event preceding the failure is the
connection); and when the issues collection already exists the run does not
fail at all — so the failure is neither unconditional nor before any
network connection is attempted. -/
theorem invalid_vectorizer_after_connect :
    (run cfgBadVec env0 worldAllOk state0).result =
      Except.error (PyErr.valueError (invalidVectorizerMsg "text2vec-fake"))
    ∧ (run cfgBadVec env0 worldAllOk state0).events = [RunEvent.netConnect]
    ∧ (run cfgBadVec env0 worldAllOk stateMainExists).result = Except.ok () :=
  ⟨rfl, rfl, rfl⟩

/-- C3 (amended): for every configured vectorizer name outside the supported
set, when the issues collection does not yet exist, the run raises the
`ValueError` naming the invalid vectorizer — but only after the network
connection to the store has been attempted and succeeded (schema creation is
where validation lives); when the issues collection already exists, no
vectorizer validation occurs and connecting (including schema management)
succeeds. -/
theorem invalid_vectorizer_validation (cfg : Config) (env : EnvKeys) (w : StoreWorld)
    (s : WvState) (hv : cfg.vectorizer ∉ vectorizerNames) :
    (s.mainExists = false → w.netConnect = Except.ok () →
      (run cfg env w s).result =
        Except.error (PyErr.valueError (invalidVectorizerMsg cfg.vectorizer))
      ∧ (run cfg env w s).events = [RunEvent.netConnect])
    ∧ (s.mainExists = true → w.netConnect = Except.ok () →
      w.createMeta = Except.ok () →
      (connectToWeaviate cfg env w s).result = Except.ok ()) := by
  have hh : getVectorizerHeaders cfg.vectorizer env = Except.ok () :=
    headers_ok_of_not_supported _ env hv
  have hvm : getVectorizerMethod cfg.vectorizer =
      Except.error (PyErr.valueError (invalidVectorizerMsg cfg.vectorizer)) := by
    unfold getVectorizerMethod
    rw [if_neg hv]
  constructor
  · intro hm hn
    constructor <;>
      simp [run, runTryBody, connectToWeaviate, ensureSchemaExists, hh, hn, hm, hvm]
  · intro hm hn hct
    by_cases hme : s.meta.collectionExists <;>
      simp [connectToWeaviate, ensureSchemaExists, hh, hn, hm, hme, hct]

/-- Closed instance of `invalid_vectorizer_validation` at the unsupported
name `foo`: failure on a fresh store, success when the collection exists. -/
theorem invalid_vectorizer_validation_witness :
    ("foo" ∉ vectorizerNames)
    ∧ (run cfgFoo env0 worldAllOk state0).result =
        Except.error (PyErr.valueError (invalidVectorizerMsg "foo"))
    ∧ (connectToWeaviate cfgFoo env0 worldAllOk stateMainExists).result =
        Except.ok () := by
  have h := invalid_vectorizer_validation cfgFoo env0 worldAllOk state0 (by decide)
  have h2 := invalid_vectorizer_validation cfgFoo env0 worldAllOk stateMainExists (by decide)
  exact ⟨by decide, (h.1 rfl rfl).1, h2.2 rfl rfl rfl⟩

end GithubIssuesToWeaviate
